import Mathlib

set_option maxRecDepth 100000

/-!
Shallow embedding of the generation orchestration pipeline of
`src/app/server.py` (a FastAPI wrapper around a ComfyUI rendering engine):
prompt safety filtering, negative-prompt composition, ComfyUI workflow
construction, submit/poll/fetch job tracking, result persistence with an
audit record, and callback dispatch.

Modelling conventions: text is `List Char` (Python `str.lower`, `str.strip`
and the regex word boundary are modelled for the ASCII range that the
policy constants use); machine integers are `Int`/`Nat`; floats that are
only carried, never computed with, are `ℚ`; every `httpx` interaction is an
oracle supplied as an explicit environment value; raised exceptions are
`Except` errors, distinguishing `fastapi.HTTPException` (status code plus
detail) from any other Python exception (its `str(e)` message).
-/

/-- Text is modelled as a list of characters. -/
abbrev Txt := List Char

/-- Lower-casing, modelling Python `str.lower()` on ASCII text. -/
def toLowerTxt (s : Txt) : Txt := s.map Char.toLower

/-- Whitespace test used by the model of Python `str.strip()`. -/
def ws (c : Char) : Bool := c.isWhitespace

/-- Leading-whitespace removal (the left half of Python `str.strip()`). -/
def trimL (s : Txt) : Txt := s.dropWhile ws

/-- Trailing-whitespace removal (the right half of Python `str.strip()`). -/
def trimR (s : Txt) : Txt := (s.reverse.dropWhile ws).reverse

/-- Model of Python `str.strip()`: drop trailing, then leading whitespace. -/
def trimTxt (s : Txt) : Txt := trimL (trimR s)

/-- Word characters of the regex escape `\w` (ASCII reading), used by the
word-boundary `\b` at both ends of every blocked pattern. -/
def wordChar (c : Char) : Bool := c.isAlphanum || c = '_'

/-- Occurrence of the literal alternative `alt` at position `i` of `s`,
flanked by word boundaries: every blocked pattern has the shape
`\b(alt1|alt2|...)\b` and every alternative starts and ends with a word
character, so `\b` amounts to "the neighbouring character, if any, is not a
word character". -/
def occursWithBoundary (alt s : Txt) (i : Nat) : Bool :=
  ((s.drop i).take alt.length == alt)
  && (match (s.take i).getLast? with
      | none => true
      | some c => !wordChar c)
  && (match (s.drop (i + alt.length)).head? with
      | none => true
      | some c => !wordChar c)

/-- Model of `re.search` for a pattern `\b(alt1|...|altN)\b` given as its
list of literal alternatives (`x?` options already expanded): the pattern
matches when some alternative occurs somewhere with word boundaries. -/
def altMatches (alt s : Txt) : Bool :=
  (List.range (s.length + 1)).any (fun i => occursWithBoundary alt s i)

/-- Matching of one blocked pattern (its list of alternatives) against text. -/
def patMatches (alts : List Txt) (s : Txt) : Bool :=
  alts.any (fun a => altMatches a s)

/-- BLOCKED_PATTERNS of `src/app/server.py` as the ordered list of
(category, alternatives) pairs.  Each regex `\b(a|b|...)\b` is embedded as
its literal alternatives, with `s?` and `-?` options expanded into both
forms (`looks? like` into `look like`/`looks like`, `resembles?` into
`resemble`/`resembles`, `non-?consensual` into
`non-consensual`/`nonconsensual`).  Python dicts iterate in declaration
order, which the list order preserves. -/
def BLOCKED_PATTERNS : List (Txt × List Txt) :=
  [ ("celebrities".data,
      [ "taylor swift".data, "scarlett johansson".data, "emma watson".data,
        "jennifer lawrence".data, "megan fox".data, "kim kardashian".data,
        "ariana grande".data, "selena gomez".data, "beyonce".data,
        "rihanna".data, "angelina jolie".data, "margot robbie".data,
        "gal gadot".data, "zendaya".data, "billie eilish".data ]),
    ("professions".data,
      [ "actress".data, "actor".data, "famous model".data,
        "influencer".data, "celebrity".data, "famous person".data ]),
    ("references".data,
      [ "look like".data, "looks like".data, "resemble".data,
        "resembles".data, "similar to".data, "based on".data,
        "inspired by".data ]),
    ("age_down".data,
      [ "younger".data, "teen".data, "teenage".data, "underage".data,
        "school".data, "student".data, "childlike".data, "loli".data,
        "shota".data ]),
    ("uniforms".data,
      [ "school uniform".data, "cheerleader uniform".data,
        "schoolgirl".data, "college girl uniform".data ]),
    ("face_swap".data,
      [ "face swap".data, "deepfake".data, "my face".data, "her face".data,
        "his face".data, "real photo of".data ]),
    ("illegal".data,
      [ "child".data, "minor".data, "kid".data, "forced".data,
        "non-consensual".data, "nonconsensual".data, "rape".data ]) ]

/-- Rejection message built by `validate_prompt` for a matched category. -/
def rejectMsg (category : Txt) : Txt :=
  "Prompt rejected: ".data ++ category ++ " content not allowed".data

/-- Loop body of `validate_prompt`: try the ordered patterns on the
lower-cased prompt, first match wins. -/
def checkPatterns (pl : Txt) : List (Txt × List Txt) → Bool × Txt
  | [] => (true, [])
  | (category, alts) :: rest =>
      if patMatches alts pl then (false, rejectMsg category)
      else checkPatterns pl rest

/-- Model of `validate_prompt`: with safety disabled, always allowed;
otherwise lower-case the prompt and test the ordered blocked patterns. -/
def validate_prompt (enable_safety : Bool) (prompt : Txt) : Bool × Txt :=
  if enable_safety then checkPatterns (toLowerTxt prompt) BLOCKED_PATTERNS
  else (true, [])

/-- GLOBAL_NEGATIVE_PROMPT of `src/app/server.py`, the triple-quoted
constant verbatim (leading and trailing newline included). -/
def GLOBAL_NEGATIVE_PROMPT : Txt :=
  ("\ncelebrity, famous person, actor, actress, influencer, model,\nreal person, known face, instagram face, tiktok face,\nbeauty filter, airbrushed skin, plastic skin,\nanime, illustration, painting, cgi, 3d render,\nteen, teenage, young-looking, childlike, youthful face,\nschool uniform, student, cosplay,\ndistorted face, extra fingers, deformed eyes\n").data

/-- Mandatory negative-term block: the stripped global constant, which is
what `build_safe_prompt` always appends. -/
def mandatoryNegativeBlock : Txt := trimTxt GLOBAL_NEGATIVE_PROMPT

/-- Model of `build_safe_prompt`: the prompt is stripped and used directly;
the combined negative is the stripped global block, preceded by the user
negative and a comma separator when the user negative is non-empty, the
whole stripped again. -/
def build_safe_prompt (prompt : Txt) (negative_prompt : Txt) : Txt × Txt :=
  let safe_prompt := trimTxt prompt
  let g := trimTxt GLOBAL_NEGATIVE_PROMPT
  let combined := if negative_prompt = [] then g
                  else negative_prompt ++ ", ".data ++ g
  (safe_prompt, trimTxt combined)

/-- Values embedded in a ComfyUI workflow node input: a string, an integer,
a carried float (as a rational), or a reference `[nodeId, slot]` to another
node's output. -/
inductive JVal where
  | s (v : Txt)
  | i (v : Int)
  | q (v : ℚ)
  | ref (node : Txt) (slot : Nat)
deriving DecidableEq

/-- One workflow node: its `class_type` and ordered `inputs` object. -/
structure WNode where
  class_type : Txt
  inputs : List (Txt × JVal)
deriving DecidableEq

/-- A workflow is the ordered JSON object mapping node id to node. -/
abbrev Workflow := List (Txt × WNode)

/-- Model of `build_comfyui_workflow`: the seven-node SDXL text-to-image
graph, transcribed verbatim (node ids, class types, input keys, wiring and
constants) from `src/app/server.py`. -/
def build_comfyui_workflow (prompt : Txt) (negative_prompt : Txt)
    (seed : Int) (steps : Int) (cfg : ℚ) (width : Int) (height : Int)
    (model_name : Txt) : Workflow :=
  [ ("3".data,
     { class_type := "KSampler".data,
       inputs :=
        [ ("seed".data, JVal.i seed),
          ("steps".data, JVal.i steps),
          ("cfg".data, JVal.q cfg),
          ("sampler_name".data, JVal.s "dpmpp_2m".data),
          ("scheduler".data, JVal.s "karras".data),
          ("denoise".data, JVal.q 1),
          ("model".data, JVal.ref "4".data 0),
          ("positive".data, JVal.ref "6".data 0),
          ("negative".data, JVal.ref "7".data 0),
          ("latent_image".data, JVal.ref "5".data 0) ] }),
    ("4".data,
     { class_type := "CheckpointLoaderSimple".data,
       inputs := [ ("ckpt_name".data, JVal.s model_name) ] }),
    ("5".data,
     { class_type := "EmptyLatentImage".data,
       inputs :=
        [ ("width".data, JVal.i width),
          ("height".data, JVal.i height),
          ("batch_size".data, JVal.i 1) ] }),
    ("6".data,
     { class_type := "CLIPTextEncode".data,
       inputs :=
        [ ("text".data, JVal.s prompt),
          ("clip".data, JVal.ref "4".data 1) ] }),
    ("7".data,
     { class_type := "CLIPTextEncode".data,
       inputs :=
        [ ("text".data, JVal.s negative_prompt),
          ("clip".data, JVal.ref "4".data 1) ] }),
    ("8".data,
     { class_type := "VAEDecode".data,
       inputs :=
        [ ("samples".data, JVal.ref "3".data 0),
          ("vae".data, JVal.ref "4".data 2) ] }),
    ("9".data,
     { class_type := "SaveImage".data,
       inputs :=
        [ ("filename_prefix".data, JVal.s "xinmate".data),
          ("images".data, JVal.ref "8".data 0) ] }) ]

/-- Wiring content of an input value: a node reference is kept, an embedded
scalar or text value is erased. -/
def valWiring : JVal → Option (Txt × Nat)
  | JVal.ref n k => some (n, k)
  | _ => none

/-- Shape of one node: class type, input keys, and reference edges. -/
def nodeWiring (n : WNode) : Txt × List (Txt × Option (Txt × Nat)) :=
  (n.class_type, n.inputs.map (fun p => (p.1, valWiring p.2)))

/-- Shape of a workflow: node ids with each node's wiring, all embedded
scalar and text values erased. -/
def workflowWiring (w : Workflow) : List (Txt × (Txt × List (Txt × Option (Txt × Nat)))) :=
  w.map (fun p => (p.1, nodeWiring p.2))

/-- Replacement of one input value of one node of a workflow, leaving
every other node, key and value unchanged. -/
def setNodeInput (w : Workflow) (nid key : Txt) (v : JVal) : Workflow :=
  w.map (fun p =>
    if p.1 = nid then
      (p.1, { class_type := p.2.class_type,
              inputs := p.2.inputs.map (fun kv => if kv.1 = key then (kv.1, v) else kv) })
    else p)

/-- Association-list lookup, modelling Python dict key membership and
indexing for insertion-ordered JSON objects. -/
def lookupTxt {α : Type} : List (Txt × α) → Txt → Option α
  | [], _ => none
  | (k2, v) :: rest, k => if k2 = k then some v else lookupTxt rest k

/-- Python exception as observed by the endpoint handlers: either a
`fastapi.HTTPException` with status code and detail, or any other exception
carrying its `str(e)` message. -/
inductive PyExc where
  | http (status : Nat) (detail : Txt)
  | exc (msg : Txt)
deriving DecidableEq

/-- Decimal rendering of a number, for messages interpolating values. -/
def natTxt (n : Nat) : Txt := (toString n).data

/-- One entry of a node's `images` list in an engine history record:
the filename, and the subfolder when the key is present. -/
structure ImageInfo where
  filename : Txt
  subfolder : Option Txt
deriving DecidableEq

/-- One node's entry in a record's `outputs` object: `images` is `some`
exactly when the node output carries an `images` field. -/
structure NodeOutput where
  images : Option (List ImageInfo)
deriving DecidableEq

/-- Terminal history record of a job: its `outputs` object (empty when the
`outputs` key is absent, matching `history.get("outputs", {})`). -/
structure Hist where
  outputs : List (Txt × NodeOutput)
deriving DecidableEq

/-- Outcome of one `GET /history/{id}` poll: the request either raised an
exception (connection error and the like) or produced a response with a
status code and the history object, a map from prompt id to record. -/
inductive Query where
  | raise (m : Txt)
  | resp (code : Nat) (hist : List (Txt × Hist))
deriving DecidableEq

/-- Outcome of one `GET /view` artifact fetch: raised exception, or a
response with status code and body bytes. -/
inductive ViewResp where
  | raise (m : Txt)
  | resp (code : Nat) (content : List Nat)
deriving DecidableEq

/-- Everything the pipeline observes from the outside world during one
request: the `POST /prompt` submission outcome (`Except.error m` for a
raised transport or parse exception, otherwise status code, response text
and parsed prompt id), the per-tick poll outcomes, the artifact-fetch
outcomes by filename and subfolder, and the `hashlib.sha256(...).hexdigest()`
routine as a function on bytes. -/
structure EngineEnv where
  submit : Except Txt (Nat × Txt × Txt)
  poll : Nat → Query
  view : Txt → Txt → ViewResp
  sha256hex : List Nat → Txt

/-- Model of `queue_prompt`: a raised request exception propagates as a
plain exception; a non-200 response raises `HTTPException(500, ...)`;
otherwise the prompt id from the response JSON is returned. -/
def queue_prompt (env : EngineEnv) (_workflow : Workflow) : Except PyExc Txt :=
  match env.submit with
  | Except.error m => Except.error (PyExc.exc m)
  | Except.ok (code, text, pid) =>
      if code = 200 then Except.ok pid
      else Except.error (PyExc.http 500 ("ComfyUI error: ".data ++ text))

/-- Classification of one poll tick as the loop body of
`wait_for_completion` sees it. -/
inductive PollStep where
  | raised (m : Txt)
  | found (h : Hist)
  | pending
deriving DecidableEq

/-- One iteration of the poll loop: a raised `GET` propagates; a 200
response whose history contains the prompt id yields the record; any other
response (non-200, or 200 without the id) leaves the job pending. -/
def examine (q : Query) (pid : Txt) : PollStep :=
  match q with
  | Query.raise m => PollStep.raised m
  | Query.resp code hist =>
      if code = 200 then
        match lookupTxt hist pid with
        | some h => PollStep.found h
        | none => PollStep.pending
      else PollStep.pending

/-- Timeout message of `wait_for_completion`. -/
def timeoutMsg (timeout : Nat) : Txt :=
  "Generation timeout after ".data ++ natTxt timeout ++ "s".data

/-- Poll loop of `wait_for_completion`, advanced on the fixed 1-second tick
(`asyncio.sleep(1)` ends every iteration, so elapsed wall time at iteration
`k` is modelled as `k` seconds).  The fuel argument equals
`timeout + 1 - k`, so fuel 0 is exactly the `elapsed > timeout` check
raising `HTTPException(504, ...)`. -/
def wait_aux (poll : Nat → Query) (pid : Txt) (timeout : Nat) :
    Nat → Nat → Except PyExc Hist
  | _, 0 => Except.error (PyExc.http 504 (timeoutMsg timeout))
  | k, fuel + 1 =>
      match examine (poll k) pid with
      | PollStep.raised m => Except.error (PyExc.exc m)
      | PollStep.found h => Except.ok h
      | PollStep.pending => wait_aux poll pid timeout (k + 1) fuel

/-- Default polling deadline of `wait_for_completion` (seconds). -/
def default_poll_timeout : Nat := 300

/-- Model of `wait_for_completion`: poll at ticks 0, 1, 2, ... and raise
504 once elapsed time exceeds the deadline. -/
def wait_for_completion (poll : Nat → Query) (pid : Txt) (timeout : Nat) :
    Except PyExc Hist :=
  wait_aux poll pid timeout 0 (timeout + 1)

/-- Inner loop of `get_generated_image` over one node's `images` list:
the first fetch answered 200 wins; a raised fetch propagates; non-200
responses skip to the next image. `none` means this node yielded nothing. -/
def fetchImages (view : Txt → Txt → ViewResp) :
    List ImageInfo → Option (Except PyExc (Txt × List Nat))
  | [] => none
  | info :: rest =>
      match view info.filename (info.subfolder.getD []) with
      | ViewResp.raise m => some (Except.error (PyExc.exc m))
      | ViewResp.resp code content =>
          if code = 200 then some (Except.ok (info.filename, content))
          else fetchImages view rest

/-- Outer loop of `get_generated_image` over the record's output nodes:
scan for nodes carrying an `images` field; if no fetch ever answers 200,
raise `HTTPException(500, "No image found in output")`. -/
def fetchOutputs (view : Txt → Txt → ViewResp) :
    List (Txt × NodeOutput) → Except PyExc (Txt × List Nat)
  | [] => Except.error (PyExc.http 500 "No image found in output".data)
  | (_, out) :: rest =>
      match out.images with
      | none => fetchOutputs view rest
      | some infos =>
          match fetchImages view infos with
          | some r => r
          | none => fetchOutputs view rest

/-- Model of `get_generated_image` on a terminal history record. -/
def get_generated_image (view : Txt → Txt → ViewResp) (history : Hist) :
    Except PyExc (Txt × List Nat) :=
  fetchOutputs view history.outputs

/-- UTF-8 encoding of prompt text for hashing, modelled on the code-point
range the policy uses (one byte per ASCII character). -/
def encodeUtf8 (s : Txt) : List Nat := s.map Char.toNat

/-- Audit record written (as a JSON line via the logger) once per
successful generation. -/
structure AuditEntry where
  image_hash : Txt
  filename : Txt
  timestamp : Txt
  persona_id : Option Txt
  user_id : Option Txt
  seed : Int
  prompt_hash : Txt
deriving DecidableEq

/-- Metadata dict passed by both orchestrator paths to the persister. -/
structure SaveMetadata where
  prompt : Txt
  seed : Int
  persona_id : Option Txt
  user_id : Option Txt
deriving DecidableEq

/-- Result of the persister: stored filename, content hash, and the audit
record it emits. -/
structure SaveResult where
  filename : Txt
  image_hash : Txt
  audit : AuditEntry
deriving DecidableEq

/-- Model of `save_and_hash_image`: the content hash is the sha256 hex
digest of the image bytes truncated to 16 characters; the filename appends
an underscore and the first 8 characters of a fresh `uuid4().hex` value
(`rsuffix`, supplied by the caller as the request's entropy) plus `.png`;
the audit entry carries the truncated prompt digest, never the prompt. -/
def save_and_hash_image (sha256hex : List Nat → Txt) (now rsuffix : Txt)
    (image_data : List Nat) (meta : SaveMetadata) : SaveResult :=
  let image_hash := (sha256hex image_data).take 16
  let filename := image_hash ++ "_".data ++ rsuffix.take 8 ++ ".png".data
  { filename := filename,
    image_hash := image_hash,
    audit :=
      { image_hash := image_hash,
        filename := filename,
        timestamp := now,
        persona_id := meta.persona_id,
        user_id := meta.user_id,
        seed := meta.seed,
        prompt_hash := (sha256hex (encodeUtf8 meta.prompt)).take 16 } }

/-- GenerateRequest body fields. -/
structure GenerateRequest where
  prompt : Txt
  negative_prompt : Option Txt
  seed : Option Int
  steps : Option Int
  cfg_scale : Option ℚ
  width : Option Int
  height : Option Int
  face_reference : Option Txt
  face_weight : Option ℚ
  persona_id : Option Txt
  user_id : Option Txt
deriving DecidableEq

/-- GenerateAsyncRequest: the shared fields plus required request id and
callback URL. -/
structure GenerateAsyncRequest where
  base : GenerateRequest
  request_id : Txt
  callback_url : Txt
deriving DecidableEq

/-- GenerateResponse body of the synchronous endpoint. -/
structure GenerateResponse where
  success : Bool
  image_url : Option Txt
  image_hash : Option Txt
  seed_used : Option Int
  error : Option Txt
deriving DecidableEq

/-- AsyncQueuedResponse body of the asynchronous endpoint. -/
structure AsyncQueuedResponse where
  status : Txt
  request_id : Txt
  message : Txt
deriving DecidableEq

/-- Process-wide configuration (environment-variable fallbacks in
parentheses): default steps (32), cfg (6.0), width/height (1024), model
name, and the safety-filter flag. -/
structure Config where
  default_steps : Int
  default_cfg : ℚ
  default_width : Int
  default_height : Int
  model_name : Txt
  enable_safety : Bool
deriving DecidableEq

/-- Configuration holding the in-code environment-variable fallbacks. -/
def defaultConfig : Config :=
  { default_steps := 32, default_cfg := 6, default_width := 1024,
    default_height := 1024, model_name := "juggernautXL_v9.safetensors".data,
    enable_safety := true }

/-- Seed resolution `req.seed if req.seed and req.seed > 0 else
int(uuid.uuid4().int % (2**32))`: a present, non-zero, positive seed is
kept; absent, zero or negative seeds are replaced by the fresh uuid-derived
value `u` reduced mod 2^32. -/
def resolve_seed (s : Option Int) (u : Nat) : Int :=
  match s with
  | some v => if 0 < v then v else ((u % 2 ^ 32 : Nat) : Int)
  | none => ((u % 2 ^ 32 : Nat) : Int)

/-- Python `field or default` resolution for integer fields: `None` and `0`
are falsy and fall back to the default. -/
def resolve_int (field : Option Int) (dflt : Int) : Int :=
  match field with
  | some v => if v = 0 then dflt else v
  | none => dflt

/-- Python `field or default` resolution for float fields: `None` and `0.0`
are falsy and fall back to the default. -/
def resolve_rat (field : Option ℚ) (dflt : ℚ) : ℚ :=
  match field with
  | some v => if v = 0 then dflt else v
  | none => dflt

/-- Workflow both endpoints build for a request: safety-composed prompt and
negative, resolved seed and parameters, configured model name. -/
def sync_workflow (cfg : Config) (u : Nat) (req : GenerateRequest) : Workflow :=
  build_comfyui_workflow
    (build_safe_prompt req.prompt (req.negative_prompt.getD [])).1
    (build_safe_prompt req.prompt (req.negative_prompt.getD [])).2
    (resolve_seed req.seed u)
    (resolve_int req.steps cfg.default_steps)
    (resolve_rat req.cfg_scale cfg.default_cfg)
    (resolve_int req.width cfg.default_width)
    (resolve_int req.height cfg.default_height)
    cfg.model_name

/-- Data the shared pipeline hands to its caller on success: stored
filename, content hash, the resolved seed, and the audit record emitted. -/
structure PipelineSuccess where
  filename : Txt
  image_hash : Txt
  seed : Int
  audit : AuditEntry
deriving DecidableEq

/-- Pipeline shared by both endpoints after validation: build the workflow,
submit it, poll to completion under the default 300-second deadline, fetch
the artifact, persist and hash it.  `u` models the request's
`uuid.uuid4().int` draw for the seed, `rsuffix` its `uuid4().hex` draw for
the filename, `now` the timestamp. -/
def run_pipeline (env : EngineEnv) (cfg : Config) (u : Nat)
    (now rsuffix : Txt) (req : GenerateRequest) :
    Except PyExc PipelineSuccess := do
  let seed := resolve_seed req.seed u
  let workflow := sync_workflow cfg u req
  let pid ← queue_prompt env workflow
  let hist ← wait_for_completion env.poll pid default_poll_timeout
  let img ← get_generated_image env.view hist
  let sr := save_and_hash_image env.sha256hex now rsuffix img.2
    { prompt := req.prompt, seed := seed,
      persona_id := req.persona_id, user_id := req.user_id }
  pure { filename := sr.filename, image_hash := sr.image_hash,
         seed := seed, audit := sr.audit }

/-- In-band failure response of the synchronous endpoint:
`GenerateResponse(success=False, error=str(e))`. -/
def failResponse (m : Txt) : GenerateResponse :=
  { success := false, image_url := none, image_hash := none,
    seed_used := none, error := some m }

/-- Success response of the synchronous endpoint. -/
def successResponse (ps : PipelineSuccess) : GenerateResponse :=
  { success := true, image_url := some ("/images/".data ++ ps.filename),
    image_hash := some ps.image_hash, seed_used := some ps.seed,
    error := none }

/-- Decidable equality of `Except` values with decidable components. -/
instance {ε α : Type} [DecidableEq ε] [DecidableEq α] :
    DecidableEq (Except ε α) := fun x y =>
  match x, y with
  | Except.ok a, Except.ok b =>
      if h : a = b then isTrue (by rw [h])
      else isFalse (by intro hc; injection hc with h2; exact h h2)
  | Except.error a, Except.error b =>
      if h : a = b then isTrue (by rw [h])
      else isFalse (by intro hc; injection hc with h2; exact h h2)
  | Except.ok _, Except.error _ => isFalse (by intro hc; cases hc)
  | Except.error _, Except.ok _ => isFalse (by intro hc; cases hc)

/-- Observable outcome of one synchronous `POST /generate` call: the HTTP
result (an in-band `GenerateResponse`, or a raised `HTTPException`), the
audit records emitted, and the workflows submitted to the engine. -/
structure SyncOutcome where
  result : Except PyExc GenerateResponse
  audits : List AuditEntry
  submitted : List Workflow
deriving DecidableEq

/-- Model of the synchronous endpoint `generate_image`: a safety rejection
raises `HTTPException(400, ...)` before any job exists; inside the try
block an `HTTPException` is re-raised (`except HTTPException: raise`) while
any other exception is converted to the in-band
`GenerateResponse(success=False, error=str(e))`. -/
def generate_image (env : EngineEnv) (cfg : Config) (u : Nat)
    (now rsuffix : Txt) (req : GenerateRequest) : SyncOutcome :=
  let v := validate_prompt cfg.enable_safety req.prompt
  if v.1 then
    match run_pipeline env cfg u now rsuffix req with
    | Except.ok ps =>
        { result := Except.ok (successResponse ps), audits := [ps.audit],
          submitted := [sync_workflow cfg u req] }
    | Except.error (PyExc.http c d) =>
        { result := Except.error (PyExc.http c d), audits := [],
          submitted := [sync_workflow cfg u req] }
    | Except.error (PyExc.exc m) =>
        { result := Except.ok (failResponse m), audits := [],
          submitted := [sync_workflow cfg u req] }
  else { result := Except.error (PyExc.http 400 v.2), audits := [],
         submitted := [] }

/-- Observable outcome of one `POST /generate-async` call: the immediate
HTTP result and the background tasks scheduled. -/
structure AsyncEndpointOutcome where
  result : Except PyExc AsyncQueuedResponse
  scheduled : List GenerateAsyncRequest
deriving DecidableEq

/-- Model of the asynchronous endpoint `generate_image_async`: a safety
rejection raises `HTTPException(400, ...)`; otherwise the background task
is scheduled and the queued acknowledgment is returned at once. -/
def generate_image_async (cfg : Config) (req : GenerateAsyncRequest) :
    AsyncEndpointOutcome :=
  let v := validate_prompt cfg.enable_safety req.base.prompt
  if v.1 then
    { result := Except.ok
        { status := "queued".data, request_id := req.request_id,
          message := "Image generation started in background".data },
      scheduled := [req] }
  else { result := Except.error (PyExc.http 400 v.2), scheduled := [] }

/-- Callback body POSTed by the background unit: the success dict
(`status: "completed"`) or the failure dict (`status: "failed"`). -/
inductive CallbackPayload where
  | completed (request_id : Txt) (image_url : Txt) (image_hash : Txt)
      (seed_used : Int) (user_id : Option Txt) (persona_id : Option Txt)
  | failed (request_id : Txt) (error : Txt) (user_id : Option Txt)
deriving DecidableEq

/-- The `status` field of a callback payload. -/
def payloadStatus : CallbackPayload → Txt
  | CallbackPayload.completed _ _ _ _ _ _ => "completed".data
  | CallbackPayload.failed _ _ _ => "failed".data

/-- The `request_id` field of a callback payload. -/
def payloadRequestId : CallbackPayload → Txt
  | CallbackPayload.completed rid _ _ _ _ _ => rid
  | CallbackPayload.failed rid _ _ => rid

/-- One outbound POST attempt of the background unit: target URL, body,
and the `httpx` request timeout in seconds. -/
structure PostAttempt where
  url : Txt
  payload : CallbackPayload
  timeoutSeconds : ℚ
deriving DecidableEq

/-- Observable outcome of one background unit: the POST attempts made in
order, whether the unit itself raised, and the audit records emitted. -/
structure AsyncRunOutcome where
  posts : List PostAttempt
  raised : Bool
  audits : List AuditEntry
deriving DecidableEq

/-- Message `str(e)` of an exception as interpolated into the failure
callback: an `HTTPException` prints as `"{status_code}: {detail}"`. -/
def errMsg : PyExc → Txt
  | PyExc.http c d => natTxt c ++ ": ".data ++ d
  | PyExc.exc m => m

/-- Model of the background task `process_async_generation`.  `deliver n`
describes the `n`-th outbound POST of this run: `none` when it returns
(any status code), `some m` when it raises with message `m`.  On pipeline
success the success payload is POSTed once; if that POST raises, control
falls into the outer `except Exception`, which POSTs a failure payload
whose error is the callback exception's message, its own failure swallowed
by `except: pass`.  On pipeline failure a single failure POST is attempted,
its failure likewise swallowed.  The unit never raises. -/
def process_async_generation (env : EngineEnv) (deliver : Nat → Option Txt)
    (cfg : Config) (u : Nat) (now rsuffix : Txt)
    (req : GenerateAsyncRequest) : AsyncRunOutcome :=
  match run_pipeline env cfg u now rsuffix req.base with
  | Except.ok ps =>
      let cd := CallbackPayload.completed req.request_id
        ("/images/".data ++ ps.filename) ps.image_hash ps.seed
        req.base.user_id req.base.persona_id
      match deliver 0 with
      | none =>
          { posts := [{ url := req.callback_url, payload := cd,
                        timeoutSeconds := 10 }],
            raised := false, audits := [ps.audit] }
      | some m =>
          let ed := CallbackPayload.failed req.request_id m req.base.user_id
          { posts := [{ url := req.callback_url, payload := cd,
                        timeoutSeconds := 10 },
                      { url := req.callback_url, payload := ed,
                        timeoutSeconds := 10 }],
            raised := false, audits := [ps.audit] }
  | Except.error e =>
      let ed := CallbackPayload.failed req.request_id (errMsg e)
        req.base.user_id
      { posts := [{ url := req.callback_url, payload := ed,
                    timeoutSeconds := 10 }],
        raised := false, audits := [] }

/-- Value of one input of one node of a workflow, when present. -/
def nodeInput (w : Workflow) (nid key : Txt) : Option JVal :=
  match lookupTxt w nid with
  | none => none
  | some nd => lookupTxt nd.inputs key

/-- Concrete benign request used by witnesses: fixed positive seed, all
other generation fields left to their defaults. -/
def reqMountain : GenerateRequest :=
  { prompt := "a mountain landscape at sunset".data,
    negative_prompt := some [], seed := some 5, steps := none,
    cfg_scale := none, width := none, height := none,
    face_reference := none, face_weight := some (7 / 10),
    persona_id := none, user_id := none }

/-- The benign request with an explicit `steps` value of zero. -/
def reqStepsZero : GenerateRequest := { reqMountain with steps := some 0 }

/-- The benign request with banned-category text in `negative_prompt`. -/
def reqBannedNegative : GenerateRequest :=
  { reqMountain with negative_prompt := some "taylor swift".data }

/-- Concrete terminal history record whose node 9 carries one image. -/
def histOk : Hist :=
  { outputs :=
      [ ("9".data,
         { images := some [ { filename := "ComfyUI_0001.png".data,
                              subfolder := some [] } ] }) ] }

/-- Concrete stand-in for the sha256 hex digest routine. -/
def shaConst : List Nat → Txt := fun _ =>
  "aaaabbbbccccddddeeeeffff0000111122223333444455556666777788889999".data

/-- Constant digest routine, for exhibiting digest-equal prompts. -/
def shaK : List Nat → Txt := fun _ => "kkkkkkkkkkkkkkkkkkkk".data

/-- Engine oracle for a fully successful run: submission accepted with
prompt id `p1`, the history reports `p1` terminal from the first poll, the
artifact fetch answers 200. -/
def envOk : EngineEnv :=
  { submit := Except.ok (200, [], "p1".data),
    poll := fun _ => Query.resp 200 [("p1".data, histOk)],
    view := fun _ _ => ViewResp.resp 200 [137, 80, 78, 71],
    sha256hex := shaConst }

/-- Engine oracle whose submission is refused with a 500 response. -/
def envSubmitRefused : EngineEnv :=
  { submit := Except.ok (500, "boom".data, "p1".data),
    poll := fun _ => Query.resp 200 [],
    view := fun _ _ => ViewResp.resp 404 [],
    sha256hex := shaConst }

/-- Engine oracle whose submission raises a connection error. -/
def envConnFail : EngineEnv :=
  { submit := Except.error "Connection refused".data,
    poll := fun _ => Query.resp 200 [],
    view := fun _ _ => ViewResp.resp 404 [],
    sha256hex := shaConst }

/-- Engine oracle that reports completion with a record carrying no
retrievable image (empty outputs). -/
def envNoImage : EngineEnv :=
  { submit := Except.ok (200, [], "p1".data),
    poll := fun _ => Query.resp 200 [("p1".data, { outputs := [] })],
    view := fun _ _ => ViewResp.resp 404 [],
    sha256hex := shaConst }

/-- Timestamp used by witnesses. -/
def nowC : Txt := "2026-01-01T00:00:00".data

/-- Fresh `uuid4().hex` draw used by witnesses. -/
def sufC : Txt := "0123456789abcdef".data

/-- Callback oracle whose every POST returns. -/
def deliverOk : Nat → Option Txt := fun _ => none

/-- Callback oracle whose first POST raises a connection error. -/
def deliverFailFirst : Nat → Option Txt :=
  fun n => if n = 0 then some "Connection reset by peer".data else none

/-- Async request wrapping the benign request. -/
def areqOk : GenerateAsyncRequest :=
  { base := reqMountain, request_id := "abc123".data,
    callback_url := "http://callback.example/hook".data }

/-- Async request wrapping the banned-negative request. -/
def areqBanned : GenerateAsyncRequest :=
  { base := reqBannedNegative, request_id := "abc123".data,
    callback_url := "http://callback.example/hook".data }

/-- Expected pipeline success value for `envOk` with `reqMountain`. -/
def psOk : PipelineSuccess :=
  { filename := "aaaabbbbccccdddd_01234567.png".data,
    image_hash := "aaaabbbbccccdddd".data,
    seed := 5,
    audit :=
      { image_hash := "aaaabbbbccccdddd".data,
        filename := "aaaabbbbccccdddd_01234567.png".data,
        timestamp := nowC, persona_id := none, user_id := none,
        seed := 5, prompt_hash := "aaaabbbbccccdddd".data } }

/-- Poll oracle whose every status query raises a connection error. -/
def qRaise : Nat → Query := fun _ => Query.raise "Connection refused".data

/-- Poll oracle answering a 500 response on the first two ticks and the
terminal record from tick 2 on. -/
def qFoundAt2 : Nat → Query :=
  fun k => if k < 2 then Query.resp 500 []
           else Query.resp 200 [("p1".data, histOk)]

/-- Metadata value used by persister witnesses. -/
def metaA : SaveMetadata :=
  { prompt := "a cat".data, seed := 1, persona_id := none, user_id := none }

theorem except_bind_error {α β : Type} (e : PyExc) (f : α → Except PyExc β) :
    (Except.error e >>= f : Except PyExc β) = Except.error e := rfl

theorem except_bind_ok {α β : Type} (a : α) (f : α → Except PyExc β) :
    (Except.ok a >>= f : Except PyExc β) = f a := rfl

theorem checkPatterns_allow (pl : Txt) (L : List (Txt × List Txt))
    (h : ∀ pr ∈ L, patMatches pr.2 pl = false) :
    checkPatterns pl L = (true, []) := by
  induction L with
  | nil => rfl
  | cons hd tl ih =>
      obtain ⟨cat, alts⟩ := hd
      have h1 := h (cat, alts) (List.mem_cons_self _ _)
      simp only [checkPatterns, h1, Bool.false_eq_true, if_false]
      exact ih (fun pr hpr => h pr (List.mem_cons_of_mem _ hpr))

theorem checkPatterns_first (pl : Txt) (pre : List (Txt × List Txt))
    (cat : Txt) (alts : List Txt) (post : List (Txt × List Txt))
    (hpre : ∀ pr ∈ pre, patMatches pr.2 pl = false)
    (hm : patMatches alts pl = true) :
    checkPatterns pl (pre ++ (cat, alts) :: post) = (false, rejectMsg cat) := by
  induction pre with
  | nil => simp [checkPatterns, hm]
  | cons hd tl ih =>
      obtain ⟨c2, a2⟩ := hd
      have h1 := hpre (c2, a2) (List.mem_cons_self _ _)
      simp only [List.cons_append, checkPatterns, h1, Bool.false_eq_true,
        if_false]
      exact ih (fun pr hpr => hpre pr (List.mem_cons_of_mem _ hpr))

/-- C3: with the filter enabled, text matching at least one banned-category
pattern (case-insensitively) is rejected with the first matching category
in declaration order of the fixed ordered pattern list; text matching no
pattern is allowed; with the filter disabled every input is allowed,
including known-banned text. -/
theorem c3_classify_first_match (p : Txt) :
    validate_prompt false p = (true, []) ∧
    ((∀ pr ∈ BLOCKED_PATTERNS, patMatches pr.2 (toLowerTxt p) = false) →
      validate_prompt true p = (true, [])) ∧
    (∀ pre cat alts post,
      BLOCKED_PATTERNS = pre ++ (cat, alts) :: post →
      (∀ pr ∈ pre, patMatches pr.2 (toLowerTxt p) = false) →
      patMatches alts (toLowerTxt p) = true →
      validate_prompt true p = (false, rejectMsg cat)) := by
  refine ⟨rfl, ?_, ?_⟩
  · intro h
    show checkPatterns (toLowerTxt p) BLOCKED_PATTERNS = (true, [])
    exact checkPatterns_allow _ _ h
  · intro pre cat alts post heq hpre hm
    show checkPatterns (toLowerTxt p) BLOCKED_PATTERNS = (false, rejectMsg cat)
    rw [heq]
    exact checkPatterns_first _ _ _ _ _ hpre hm

/-- Witness for C3: a celebrity prompt is rejected with the first category,
a benign prompt is allowed, and a banned prompt is allowed when the filter
is disabled. -/
theorem c3_classify_first_match_witness :
    validate_prompt true "A photo of Taylor Swift".data =
      (false, rejectMsg "celebrities".data) ∧
    validate_prompt true "a mountain landscape at sunset".data = (true, []) ∧
    validate_prompt false "child".data = (true, []) := by
  refine ⟨?_, ?_, ?_⟩
  · exact (c3_classify_first_match "A photo of Taylor Swift".data).2.2
      [] "celebrities".data (BLOCKED_PATTERNS.headD ([], [])).2
      BLOCKED_PATTERNS.tail rfl (by intro pr hpr; cases hpr) (by decide)
  · exact (c3_classify_first_match "a mountain landscape at sunset".data).2.1
      (by decide)
  · exact (c3_classify_first_match "child".data).1

theorem trimR_append_right (a c : Txt) (hc : trimR c = c) (hne : c ≠ []) :
    trimR (a ++ c) = a ++ c := by
  have hrc : c.reverse.dropWhile ws = c.reverse := by
    have h2 := congrArg List.reverse hc
    simpa [trimR] using h2
  cases hcr : c.reverse with
  | nil =>
      exact absurd (by simpa using congrArg List.reverse hcr) hne
  | cons x t =>
      have hx : ws x = false := by
        cases hws : ws x with
        | false => rfl
        | true =>
            rw [hcr, List.dropWhile_cons, if_pos hws] at hrc
            have hlen := congrArg List.length hrc
            have hle : (t.dropWhile ws).length ≤ t.length :=
              (List.dropWhile_sublist ws).length_le
            simp at hlen
            omega
      unfold trimR
      rw [List.reverse_append, hcr, List.cons_append, List.dropWhile_cons,
        if_neg (by simp [hx])]
      rw [← List.cons_append, ← hcr, ← List.reverse_append,
        List.reverse_reverse]

theorem suffix_trimL_append (a c g : Txt) (hcg : g <:+ c)
    (hc : trimL c = c) : g <:+ trimL (a ++ c) := by
  induction a with
  | nil =>
      rw [List.nil_append]
      show g <:+ trimL c
      rw [hc]
      exact hcg
  | cons x t ih =>
      show g <:+ List.dropWhile ws (x :: (t ++ c))
      rw [List.dropWhile_cons]
      by_cases hx : ws x = true
      · rw [if_pos hx]
        exact ih
      · rw [if_neg hx]
        exact hcg.trans ((List.suffix_append t c).trans
          (List.suffix_cons x (t ++ c)))

/-- C4: the composed negative prompt always ends with the exact mandatory
negative-term block verbatim (hence the block is present in every case,
including for an empty user negative), and for a non-empty user negative
the output is exactly the user terms, a comma separator, then the block,
with surrounding whitespace trimmed. -/
theorem c4_negative_composition (prompt neg : Txt) :
    mandatoryNegativeBlock <:+ (build_safe_prompt prompt neg).2 ∧
    (neg ≠ [] → (build_safe_prompt prompt neg).2 =
      trimTxt (neg ++ ", ".data ++ mandatoryNegativeBlock)) := by
  constructor
  · by_cases h : neg = []
    · subst h
      show mandatoryNegativeBlock <:+ trimTxt (trimTxt GLOBAL_NEGATIVE_PROMPT)
      rw [show trimTxt (trimTxt GLOBAL_NEGATIVE_PROMPT) =
        mandatoryNegativeBlock by decide]
    · have h2 : (build_safe_prompt prompt neg).2 =
          trimTxt (neg ++ (", ".data ++ mandatoryNegativeBlock)) := by
        simp [build_safe_prompt, h, mandatoryNegativeBlock,
          List.append_assoc]
      rw [h2]
      unfold trimTxt
      rw [trimR_append_right neg (", ".data ++ mandatoryNegativeBlock)
        (by decide) (by decide)]
      exact suffix_trimL_append neg (", ".data ++ mandatoryNegativeBlock)
        mandatoryNegativeBlock ⟨", ".data, rfl⟩ (by decide)
  · intro h
    simp [build_safe_prompt, h, mandatoryNegativeBlock]

/-- Witness for C4 at a concrete non-empty user negative. -/
theorem c4_negative_composition_witness :
    mandatoryNegativeBlock <:+ (build_safe_prompt "a cat".data "blurry".data).2 ∧
    (build_safe_prompt "a cat".data "blurry".data).2 =
      trimTxt ("blurry".data ++ ", ".data ++ mandatoryNegativeBlock) :=
  ⟨(c4_negative_composition "a cat".data "blurry".data).1,
   (c4_negative_composition "a cat".data "blurry".data).2 (by decide)⟩

/-- C8: the job-graph builder is pure and deterministic; any two argument
lists yield graphs with identical node ids, class types, input keys and
reference wiring; argument lists differing only in the seed (or only in
the prompt) yield graphs equal up to replacing the sampler node's `seed`
input (or the positive text-encoder node's `text` input), so every other
node, value and edge agrees. -/
theorem c8_workflow_builder
    (p1 n1 : Txt) (s1 st1 : Int) (c1 : ℚ) (w1 h1 : Int) (m1 : Txt)
    (p2 n2 : Txt) (s2 st2 : Int) (c2 : ℚ) (w2 h2 : Int) (m2 : Txt) :
    workflowWiring (build_comfyui_workflow p1 n1 s1 st1 c1 w1 h1 m1) =
      workflowWiring (build_comfyui_workflow p2 n2 s2 st2 c2 w2 h2 m2) ∧
    build_comfyui_workflow p1 n1 s1 st1 c1 w1 h1 m1 =
      setNodeInput (build_comfyui_workflow p1 n1 s2 st1 c1 w1 h1 m1)
        "3".data "seed".data (JVal.i s1) ∧
    build_comfyui_workflow p1 n1 s1 st1 c1 w1 h1 m1 =
      setNodeInput (build_comfyui_workflow p2 n1 s1 st1 c1 w1 h1 m1)
        "6".data "text".data (JVal.s p1) :=
  ⟨rfl, rfl, rfl⟩

theorem append_cancel_mid {P s1 s2 tail : Txt}
    (h : P ++ (s1 ++ tail) = P ++ (s2 ++ tail)) : s1 = s2 :=
  List.append_cancel_right (List.append_cancel_left h)

/-- C7: the persister names the stored file by a 16-character truncation of
the sha256 digest of exactly the artifact bytes, then an underscore, then
8 characters of the fresh random draw, then `.png`; two calls on
byte-identical input share the hash prefix, and whenever their fresh
random suffixes differ the two filenames are distinct. -/
theorem c7_persist_filenames (sha : List Nat → Txt) (now r1 r2 : Txt)
    (data : List Nat) (m1 m2 : SaveMetadata) :
    (save_and_hash_image sha now r1 data m1).filename =
      (sha data).take 16 ++ "_".data ++ r1.take 8 ++ ".png".data ∧
    (save_and_hash_image sha now r1 data m1).image_hash = (sha data).take 16 ∧
    (save_and_hash_image sha now r2 data m2).image_hash = (sha data).take 16 ∧
    (r1.take 8 ≠ r2.take 8 →
      (save_and_hash_image sha now r1 data m1).filename ≠
        (save_and_hash_image sha now r2 data m2).filename) := by
  refine ⟨rfl, rfl, rfl, ?_⟩
  intro hne heq
  apply hne
  simp only [save_and_hash_image, List.append_assoc] at heq
  exact append_cancel_mid (List.append_cancel_left heq)

/-- Witness for C7: two concrete persist calls on the same bytes with
different fresh suffixes share the hash prefix but get distinct names. -/
theorem c7_persist_filenames_witness :
    (save_and_hash_image shaConst "t0".data "aaaaaaaa11112222".data
      [1, 2] metaA).image_hash = (shaConst [1, 2]).take 16 ∧
    (save_and_hash_image shaConst "t0".data "bbbbbbbb11112222".data
      [1, 2] metaA).image_hash = (shaConst [1, 2]).take 16 ∧
    (save_and_hash_image shaConst "t0".data "aaaaaaaa11112222".data
      [1, 2] metaA).filename ≠
      (save_and_hash_image shaConst "t0".data "bbbbbbbb11112222".data
        [1, 2] metaA).filename := by
  have hc := c7_persist_filenames shaConst "t0".data
    "aaaaaaaa11112222".data "bbbbbbbb11112222".data [1, 2] metaA metaA
  exact ⟨hc.2.1, hc.2.2.1, hc.2.2.2 (by decide)⟩

/-- C9 (amended): the audit record depends on the prompt only through its
truncated one-way digest: the `prompt_hash` field is the 16-character
truncation of the digest of the encoded prompt, and two prompts with equal
digests yield identical persister results, all else equal. -/
theorem c9_audit_prompt_digest (sha : List Nat → Txt) (now suf : Txt)
    (data : List Nat) (p1 p2 : Txt) (seed : Int) (pid uid : Option Txt) :
    (save_and_hash_image sha now suf data
        { prompt := p1, seed := seed, persona_id := pid,
          user_id := uid }).audit.prompt_hash
      = (sha (encodeUtf8 p1)).take 16 ∧
    (sha (encodeUtf8 p1) = sha (encodeUtf8 p2) →
      save_and_hash_image sha now suf data
          { prompt := p1, seed := seed, persona_id := pid, user_id := uid } =
        save_and_hash_image sha now suf data
          { prompt := p2, seed := seed, persona_id := pid, user_id := uid }) := by
  refine ⟨rfl, ?_⟩
  intro h
  simp [save_and_hash_image, h]

/-- Counterexample to C9 as stated: the audit record stores caller-supplied
metadata verbatim, so a request whose `user_id` equals its prompt text
yields an audit record with a field equal to the raw prompt. -/
theorem c9_counterexample :
    (save_and_hash_image shaConst "t0".data "0123456789abcdef".data [1, 2]
        { prompt := "secret prompt".data, seed := 1, persona_id := none,
          user_id := some "secret prompt".data }).audit.user_id
      = some "secret prompt".data := rfl

/-- Witness for C9 (amended): two digest-equal prompts yield identical
persister results under a constant digest routine. -/
theorem c9_audit_prompt_digest_witness :
    save_and_hash_image shaK "t0".data "s".data [9]
        { prompt := "alpha".data, seed := 2, persona_id := none,
          user_id := none } =
      save_and_hash_image shaK "t0".data "s".data [9]
        { prompt := "beta".data, seed := 2, persona_id := none,
          user_id := none } ∧
    (save_and_hash_image shaK "t0".data "s".data [9]
        { prompt := "alpha".data, seed := 2, persona_id := none,
          user_id := none }).audit.prompt_hash
      = (shaK (encodeUtf8 "alpha".data)).take 16 := by
  have hc := c9_audit_prompt_digest shaK "t0".data "s".data [9]
    "alpha".data "beta".data 2 none none
  exact ⟨hc.2 rfl, hc.1⟩

theorem wait_aux_http_all_pending (poll : Nat → Query) (pid : Txt) (t : Nat) :
    ∀ fuel k c d, wait_aux poll pid t k fuel = Except.error (PyExc.http c d) →
      ∀ j, k ≤ j → j < k + fuel → examine (poll j) pid = PollStep.pending := by
  intro fuel
  induction fuel with
  | zero => intro k c d h j h1 h2; omega
  | succ n ih =>
      intro k c d h j h1 h2
      cases hs : examine (poll k) pid with
      | raised m => simp [wait_aux, hs] at h
      | found hh => simp [wait_aux, hs] at h
      | pending =>
          rcases Nat.eq_or_lt_of_le h1 with rfl | hlt
          · exact hs
          · have hstep : wait_aux poll pid t k (n + 1) =
                wait_aux poll pid t (k + 1) n := by
              simp [wait_aux, hs]
            rw [hstep] at h
            exact ih (k + 1) c d h j hlt (by omega)

theorem wait_aux_first_found (poll : Nat → Query) (pid : Txt) (t : Nat) :
    ∀ fuel k k2 h, k ≤ k2 → k2 < k + fuel →
      (∀ j, k ≤ j → j < k2 → examine (poll j) pid = PollStep.pending) →
      examine (poll k2) pid = PollStep.found h →
      wait_aux poll pid t k fuel = Except.ok h := by
  intro fuel
  induction fuel with
  | zero => intro k k2 h h1 h2 h3 h4; omega
  | succ n ih =>
      intro k k2 h h1 h2 h3 h4
      rcases Nat.eq_or_lt_of_le h1 with rfl | hlt
      · simp [wait_aux, h4]
      · have hp : examine (poll k) pid = PollStep.pending :=
          h3 k (Nat.le_refl k) hlt
        have hstep : wait_aux poll pid t k (n + 1) =
            wait_aux poll pid t (k + 1) n := by
          simp [wait_aux, hp]
        rw [hstep]
        exact ih (k + 1) k2 h hlt (by omega)
          (fun j hj1 hj2 => h3 j (by omega) hj2) h4

/-- C5 (amended): within the tick-per-second model of the poll loop, a
timed-out run polled every tick through the deadline (so `TimedOut` is
never reported before the deadline elapses); the loop returns the record of
the first tick whose status query cleanly reports the handle and never
polls further; a query that returns a response (any status code) without
cleanly reporting the handle is treated as still pending and polling
continues; but a status query that raises a transport exception aborts the
loop immediately with that exception instead of being treated as pending;
the default deadline is 300 seconds. -/
theorem c5_poll_loop (poll : Nat → Query) (pid : Txt) (t : Nat) :
    default_poll_timeout = 300 ∧
    (∀ c d, wait_for_completion poll pid t = Except.error (PyExc.http c d) →
      ∀ k, k ≤ t → examine (poll k) pid = PollStep.pending) ∧
    (∀ k h, k ≤ t → examine (poll k) pid = PollStep.found h →
      (∀ j, j < k → examine (poll j) pid = PollStep.pending) →
      wait_for_completion poll pid t = Except.ok h) ∧
    (∀ k fuel, examine (poll k) pid = PollStep.pending →
      wait_aux poll pid t k (fuel + 1) = wait_aux poll pid t (k + 1) fuel) ∧
    (∀ k fuel m, examine (poll k) pid = PollStep.raised m →
      wait_aux poll pid t k (fuel + 1) = Except.error (PyExc.exc m)) := by
  refine ⟨rfl, ?_, ?_, ?_, ?_⟩
  · intro c d h k hk
    exact wait_aux_http_all_pending poll pid t (t + 1) 0 c d h k
      (Nat.zero_le k) (by omega)
  · intro k h hk h4 h3
    exact wait_aux_first_found poll pid t (t + 1) 0 k h (Nat.zero_le k)
      (by omega) (fun j _ hj2 => h3 j hj2) h4
  · intro k fuel hp
    simp [wait_aux, hp]
  · intro k fuel m hr
    simp [wait_aux, hr]

/-- Counterexample to C5 as stated: a status query that raises (engine
unreachable at the very first tick) is not treated as still pending — the
loop aborts at tick 0 with the exception, long before the 300-second
deadline, rather than continuing to poll. -/
theorem c5_counterexample :
    wait_for_completion qRaise "p1".data 300 =
      Except.error (PyExc.exc "Connection refused".data) ∧
    wait_for_completion qRaise "p1".data 300 ≠
      Except.error (PyExc.http 504 (timeoutMsg 300)) := by
  exact ⟨rfl, by decide⟩

/-- Witness for C5 (amended): with 500 responses on ticks 0 and 1 and a
clean record from tick 2, the loop returns that record; with a raising
query, the loop aborts with the exception. -/
theorem c5_poll_loop_witness :
    wait_for_completion qFoundAt2 "p1".data 300 = Except.ok histOk ∧
    wait_aux qRaise "p1".data 300 0 (300 + 1) =
      Except.error (PyExc.exc "Connection refused".data) := by
  constructor
  · exact (c5_poll_loop qFoundAt2 "p1".data 300).2.2.1 2 histOk
      (by omega) rfl (by decide)
  · exact (c5_poll_loop qRaise "p1".data 300).2.2.2.2 0 300
      "Connection refused".data rfl

/-- C1 (amended): past the safety filter, only errors raised as plain
(non-`HTTPException`) exceptions are caught and returned in-band as
`success=false` with a human-readable message; an `HTTPException` raised
inside the pipeline is re-raised as a transport-level failure, which is
what an engine submission refusal produces (`HTTPException(500, ...)`), so
auth, safety rejection, timeout, upstream submit refusal and missing
artifact all signal transport-level. -/
theorem c1_sync_error_channel (env : EngineEnv) (cfg : Config) (u : Nat)
    (now rsuffix : Txt) (req : GenerateRequest)
    (hv : (validate_prompt cfg.enable_safety req.prompt).1 = true) :
    (∀ m, run_pipeline env cfg u now rsuffix req =
        Except.error (PyExc.exc m) →
      (generate_image env cfg u now rsuffix req).result =
        Except.ok (failResponse m) ∧
      (failResponse m).success = false ∧ (failResponse m).error = some m) ∧
    (∀ c d, run_pipeline env cfg u now rsuffix req =
        Except.error (PyExc.http c d) →
      (generate_image env cfg u now rsuffix req).result =
        Except.error (PyExc.http c d)) ∧
    (∀ ps, run_pipeline env cfg u now rsuffix req = Except.ok ps →
      (generate_image env cfg u now rsuffix req).result =
        Except.ok (successResponse ps)) ∧
    (∀ code text pid, env.submit = Except.ok (code, text, pid) →
      code ≠ 200 →
      (generate_image env cfg u now rsuffix req).result =
        Except.error (PyExc.http 500 ("ComfyUI error: ".data ++ text))) := by
  have hgen : ∀ r, run_pipeline env cfg u now rsuffix req = r →
      (generate_image env cfg u now rsuffix req).result =
        (match r with
         | Except.ok ps => Except.ok (successResponse ps)
         | Except.error (PyExc.http c d) => Except.error (PyExc.http c d)
         | Except.error (PyExc.exc m) => Except.ok (failResponse m)) := by
    intro r hr
    cases r with
    | ok ps => simp [generate_image, hv, hr]
    | error e => cases e with
      | http c d => simp [generate_image, hv, hr]
      | exc m => simp [generate_image, hv, hr]
  refine ⟨?_, ?_, ?_, ?_⟩
  · intro m hm
    exact ⟨hgen _ hm, rfl, rfl⟩
  · intro c d hm
    exact hgen _ hm
  · intro ps hm
    exact hgen _ hm
  · intro code text pid hs hc
    have hq : queue_prompt env (sync_workflow cfg u req) =
        Except.error (PyExc.http 500 ("ComfyUI error: ".data ++ text)) := by
      simp [queue_prompt, hs, hc]
    have hr : run_pipeline env cfg u now rsuffix req =
        Except.error (PyExc.http 500 ("ComfyUI error: ".data ++ text)) := by
      simp only [run_pipeline]
      rw [hq, except_bind_error]
    exact hgen _ hr

/-- Counterexample to C1 as stated: an engine submission refusal
(`UpstreamSubmitError`) and a completed record with no retrievable image
(`ArtifactMissing`) both escape the synchronous endpoint as raised
`HTTPException(500, ...)` transport-level failures, not as in-band
`success=false` results. -/
theorem c1_counterexample :
    (generate_image envSubmitRefused defaultConfig 7 nowC sufC
        reqMountain).result =
      Except.error (PyExc.http 500 "ComfyUI error: boom".data) ∧
    (generate_image envNoImage defaultConfig 7 nowC sufC
        reqMountain).result =
      Except.error (PyExc.http 500 "No image found in output".data) :=
  ⟨rfl, rfl⟩

/-- Witness for C1 (amended): a raised connection error on submission (a
plain exception) is returned in-band as `success=false` with its message. -/
theorem c1_sync_error_channel_witness :
    (generate_image envConnFail defaultConfig 7 nowC sufC
        reqMountain).result =
      Except.ok (failResponse "Connection refused".data) ∧
    (failResponse "Connection refused".data).success = false ∧
    (failResponse "Connection refused".data).error =
      some "Connection refused".data :=
  (c1_sync_error_channel envConnFail defaultConfig 7 nowC sufC reqMountain
    (by decide)).1 "Connection refused".data rfl

/-- C2 (amended): the background unit never raises; each POST attempt goes
to the caller-supplied callback URL with the bounded 10-second request
timeout and the caller's request id; on pipeline failure exactly one
failure-payload POST is attempted, its own failure swallowed; on pipeline
success one success-payload POST is attempted, and if that POST raises the
handler falls into the failure path and attempts one failure-payload POST
reporting the callback exception as the error — so up to two POST attempts
occur, not exactly one. -/
theorem c2_callback_dispatch (env : EngineEnv) (deliver : Nat → Option Txt)
    (cfg : Config) (u : Nat) (now rsuffix : Txt)
    (req : GenerateAsyncRequest) :
    (process_async_generation env deliver cfg u now rsuffix req).raised
      = false ∧
    (process_async_generation env deliver cfg u now rsuffix req).posts.length
      ≤ 2 ∧
    (∀ a, a ∈ (process_async_generation env deliver cfg u now rsuffix
        req).posts →
      a.url = req.callback_url ∧ a.timeoutSeconds = 10 ∧
      payloadRequestId a.payload = req.request_id) ∧
    (∀ e, run_pipeline env cfg u now rsuffix req.base = Except.error e →
      (process_async_generation env deliver cfg u now rsuffix req).posts =
        [{ url := req.callback_url,
           payload := CallbackPayload.failed req.request_id (errMsg e)
             req.base.user_id,
           timeoutSeconds := 10 }]) ∧
    (∀ ps, run_pipeline env cfg u now rsuffix req.base = Except.ok ps →
      deliver 0 = none →
      (process_async_generation env deliver cfg u now rsuffix req).posts =
        [{ url := req.callback_url,
           payload := CallbackPayload.completed req.request_id
             ("/images/".data ++ ps.filename) ps.image_hash ps.seed
             req.base.user_id req.base.persona_id,
           timeoutSeconds := 10 }]) ∧
    (∀ ps m, run_pipeline env cfg u now rsuffix req.base = Except.ok ps →
      deliver 0 = some m →
      (process_async_generation env deliver cfg u now rsuffix req).posts =
        [{ url := req.callback_url,
           payload := CallbackPayload.completed req.request_id
             ("/images/".data ++ ps.filename) ps.image_hash ps.seed
             req.base.user_id req.base.persona_id,
           timeoutSeconds := 10 },
         { url := req.callback_url,
           payload := CallbackPayload.failed req.request_id m
             req.base.user_id,
           timeoutSeconds := 10 }]) := by
  refine ⟨?_, ?_, ?_, ?_, ?_, ?_⟩
  · cases hr : run_pipeline env cfg u now rsuffix req.base with
    | ok ps => cases hd : deliver 0 <;>
        simp [process_async_generation, hr, hd]
    | error e => simp [process_async_generation, hr]
  · cases hr : run_pipeline env cfg u now rsuffix req.base with
    | ok ps => cases hd : deliver 0 <;>
        simp [process_async_generation, hr, hd]
    | error e => simp [process_async_generation, hr]
  · intro a ha
    cases hr : run_pipeline env cfg u now rsuffix req.base with
    | ok ps =>
        cases hd : deliver 0 with
        | none =>
            simp [process_async_generation, hr, hd] at ha
            subst ha
            exact ⟨rfl, rfl, rfl⟩
        | some m =>
            simp [process_async_generation, hr, hd] at ha
            rcases ha with rfl | rfl
            · exact ⟨rfl, rfl, rfl⟩
            · exact ⟨rfl, rfl, rfl⟩
    | error e =>
        simp [process_async_generation, hr] at ha
        subst ha
        exact ⟨rfl, rfl, rfl⟩
  · intro e hr
    simp [process_async_generation, hr]
  · intro ps hr hd
    simp [process_async_generation, hr, hd]
  · intro ps m hr hd
    simp [process_async_generation, hr, hd]

/-- Counterexample to C2 as stated: when the success-callback POST raises,
the background unit makes a second POST attempt carrying a failure payload,
so delivery is not a single POST attempt made exactly once. -/
theorem c2_counterexample :
    (process_async_generation envOk deliverFailFirst defaultConfig 7 nowC
        sufC areqOk).posts.length = 2 ∧
    (process_async_generation envOk deliverFailFirst defaultConfig 7 nowC
        sufC areqOk).posts.map (fun a => payloadStatus a.payload) =
      ["completed".data, "failed".data] :=
  ⟨rfl, rfl⟩

/-- Witness for C2 (amended): on a successful pipeline with a delivered
callback, the unit makes exactly one POST of the success payload to the
caller's URL and does not raise. -/
theorem c2_callback_dispatch_witness :
    (process_async_generation envOk deliverOk defaultConfig 7 nowC sufC
        areqOk).raised = false ∧
    (process_async_generation envOk deliverOk defaultConfig 7 nowC sufC
        areqOk).posts =
      [{ url := areqOk.callback_url,
         payload := CallbackPayload.completed areqOk.request_id
           ("/images/".data ++ psOk.filename) psOk.image_hash psOk.seed
           areqOk.base.user_id areqOk.base.persona_id,
         timeoutSeconds := 10 }] := by
  have hc := c2_callback_dispatch envOk deliverOk defaultConfig 7 nowC sufC
    areqOk
  exact ⟨hc.1, hc.2.2.2.2.1 psOk rfl rfl⟩

theorem run_pipeline_ok_seed (env : EngineEnv) (cfg : Config) (u : Nat)
    (now rsuffix : Txt) (req : GenerateRequest) (ps : PipelineSuccess)
    (h : run_pipeline env cfg u now rsuffix req = Except.ok ps) :
    ps.seed = resolve_seed req.seed u ∧
    ps.audit.seed = resolve_seed req.seed u := by
  simp only [run_pipeline] at h
  cases hq : queue_prompt env (sync_workflow cfg u req) with
  | error e => rw [hq, except_bind_error] at h; simp at h
  | ok pid =>
      rw [hq, except_bind_ok] at h
      cases hw : wait_for_completion env.poll pid default_poll_timeout with
      | error e => rw [hw, except_bind_error] at h; simp at h
      | ok hist =>
          rw [hw, except_bind_ok] at h
          cases hg : get_generated_image env.view hist with
          | error e => rw [hg, except_bind_error] at h; simp at h
          | ok img =>
              rw [hg, except_bind_ok] at h
              simp only [pure, Except.pure] at h
              rw [← Except.ok.inj h]
              exact ⟨rfl, rfl⟩

/-- C6 (amended): a present positive seed is kept, an absent or
non-positive seed is replaced by the fresh uuid-derived random value
(mod 2^32); explicit non-zero request fields override process defaults
while an absent field falls back (a zero value also falls back, because
presence is tested by Python truthiness); the resolved seed is the one
recorded verbatim in the audit record, in the synchronous response's
`seed_used`, and in the success callback payload's `seed_used`. -/
theorem c6_seed_resolution (env : EngineEnv) (cfg : Config) (u : Nat)
    (now rsuffix : Txt) (req : GenerateRequest) :
    (∀ s, req.seed = some s → 0 < s → resolve_seed req.seed u = s) ∧
    (req.seed = none →
      resolve_seed req.seed u = ((u % 2 ^ 32 : Nat) : Int)) ∧
    (∀ s, req.seed = some s → s ≤ 0 →
      resolve_seed req.seed u = ((u % 2 ^ 32 : Nat) : Int)) ∧
    (∀ v d, v ≠ 0 → resolve_int (some v) d = v) ∧
    (∀ d, resolve_int (none : Option Int) d = d) ∧
    (∀ ps, run_pipeline env cfg u now rsuffix req = Except.ok ps →
      ps.seed = resolve_seed req.seed u ∧
      ps.audit.seed = resolve_seed req.seed u) ∧
    ((validate_prompt cfg.enable_safety req.prompt).1 = true →
      ∀ ps, run_pipeline env cfg u now rsuffix req = Except.ok ps →
        (generate_image env cfg u now rsuffix req).result =
          Except.ok (successResponse ps) ∧
        (successResponse ps).seed_used = some (resolve_seed req.seed u) ∧
        (generate_image env cfg u now rsuffix req).audits = [ps.audit]) ∧
    (∀ areq : GenerateAsyncRequest, ∀ deliver ps, areq.base = req →
      run_pipeline env cfg u now rsuffix req = Except.ok ps →
      deliver 0 = none →
      (process_async_generation env deliver cfg u now rsuffix areq).posts =
        [{ url := areq.callback_url,
           payload := CallbackPayload.completed areq.request_id
             ("/images/".data ++ ps.filename) ps.image_hash
             (resolve_seed req.seed u) req.user_id req.persona_id,
           timeoutSeconds := 10 }]) := by
  refine ⟨?_, ?_, ?_, ?_, ?_, ?_, ?_, ?_⟩
  · intro s hs hpos
    simp [resolve_seed, hs, hpos]
  · intro hs
    simp [resolve_seed, hs]
  · intro s hs hneg
    simp [resolve_seed, hs]
    omega
  · intro v d hv
    simp [resolve_int, hv]
  · intro d
    rfl
  · intro ps h
    exact run_pipeline_ok_seed env cfg u now rsuffix req ps h
  · intro hv ps h
    have hseed := run_pipeline_ok_seed env cfg u now rsuffix req ps h
    refine ⟨by simp [generate_image, hv, h], ?_,
      by simp [generate_image, hv, h]⟩
    simp [successResponse, hseed.1]
  · intro areq deliver ps hbase h hd
    subst hbase
    have hseed := run_pipeline_ok_seed env cfg u now rsuffix areq.base ps h
    simp [process_async_generation, h, hd, hseed.1]

/-- Counterexample to C6 as stated: a request with the explicit field
`steps = 0` does not override the process default — the built workflow's
sampler keeps the default 32 steps, because parameter presence is tested by
Python truthiness and `0` is falsy. -/
theorem c6_counterexample :
    reqStepsZero.steps = some 0 ∧
    nodeInput (sync_workflow defaultConfig 7 reqStepsZero) "3".data
      "steps".data = some (JVal.i 32) ∧
    resolve_int (some 0) 32 = 32 :=
  ⟨rfl, rfl, rfl⟩

/-- Witness for C6 (amended): with a positive requested seed 5, the
response, audit record and success callback all carry seed 5. -/
theorem c6_seed_resolution_witness :
    resolve_seed (some 5) 7 = 5 ∧
    (generate_image envOk defaultConfig 7 nowC sufC reqMountain).result =
      Except.ok (successResponse psOk) ∧
    (successResponse psOk).seed_used = some (resolve_seed (some 5) 7) ∧
    (generate_image envOk defaultConfig 7 nowC sufC reqMountain).audits =
      [psOk.audit] ∧
    (process_async_generation envOk deliverOk defaultConfig 7 nowC sufC
        areqOk).posts =
      [{ url := areqOk.callback_url,
         payload := CallbackPayload.completed areqOk.request_id
           ("/images/".data ++ psOk.filename) psOk.image_hash
           (resolve_seed (some 5) 7) reqMountain.user_id
           reqMountain.persona_id,
         timeoutSeconds := 10 }] := by
  have hc := c6_seed_resolution envOk defaultConfig 7 nowC sufC reqMountain
  have hmain := hc.2.2.2.2.2.2.1 (by decide) psOk rfl
  have hasync := hc.2.2.2.2.2.2.2 areqOk deliverOk psOk rfl rfl rfl
  exact ⟨hc.1 5 rfl (by decide), hmain.1, hmain.2.1, hmain.2.2, hasync⟩

theorem generate_image_submitted (env : EngineEnv) (cfg : Config) (u : Nat)
    (now rsuffix : Txt) (req : GenerateRequest) :
    (generate_image env cfg u now rsuffix req).submitted =
      if (validate_prompt cfg.enable_safety req.prompt).1 then
        [sync_workflow cfg u req]
      else [] := by
  by_cases hv : (validate_prompt cfg.enable_safety req.prompt).1
  · rw [if_pos hv]
    unfold generate_image
    rw [if_pos hv]
    cases run_pipeline env cfg u now rsuffix req with
    | ok ps => rfl
    | error e => cases e <;> rfl
  · rw [if_neg hv]
    unfold generate_image
    rw [if_neg hv]

/-- C10: the safety verdict depends only on the request's `prompt` field:
requests with equal prompts get the identical verdict at both endpoints
whatever their other fields (in particular `negative_prompt`), and any
request whose prompt passes the filter proceeds to job submission — the
submitted workflow embedding the user negative (banned text included) in
the negative text-encoder node — while the async endpoint schedules it and
acknowledges it as queued. -/
theorem c10_verdict_prompt_only (cfg : Config) (env : EngineEnv) (u : Nat)
    (now rsuffix : Txt) (r1 r2 : GenerateRequest) (req : GenerateRequest)
    (areq : GenerateAsyncRequest) :
    (r1.prompt = r2.prompt →
      validate_prompt cfg.enable_safety r1.prompt =
        validate_prompt cfg.enable_safety r2.prompt ∧
      ((generate_image env cfg u now rsuffix r1).submitted = [] ↔
        (generate_image env cfg u now rsuffix r2).submitted = [])) ∧
    ((validate_prompt cfg.enable_safety req.prompt).1 = true →
      (generate_image env cfg u now rsuffix req).submitted =
        [sync_workflow cfg u req] ∧
      nodeInput (sync_workflow cfg u req) "7".data "text".data =
        some (JVal.s
          (build_safe_prompt req.prompt (req.negative_prompt.getD [])).2)) ∧
    ((validate_prompt cfg.enable_safety areq.base.prompt).1 = true →
      (generate_image_async cfg areq).scheduled = [areq] ∧
      (generate_image_async cfg areq).result = Except.ok
        { status := "queued".data, request_id := areq.request_id,
          message := "Image generation started in background".data }) := by
  refine ⟨?_, ?_, ?_⟩
  · intro h
    refine ⟨by rw [h], ?_⟩
    rw [generate_image_submitted, generate_image_submitted, h]
    by_cases hv2 : (validate_prompt cfg.enable_safety r2.prompt).1 = true <;>
      simp [hv2]
  · intro hv
    refine ⟨?_, rfl⟩
    rw [generate_image_submitted, if_pos hv]
  · intro hv
    exact ⟨by simp [generate_image_async, hv], by simp [generate_image_async, hv]⟩

/-- Witness for C10: banned-category text placed in `negative_prompt` is
not rejected — the synchronous endpoint still submits the workflow (whose
negative text embeds it) and the asynchronous endpoint still schedules the
job; the verdict equals that of the same prompt with a benign negative. -/
theorem c10_verdict_prompt_only_witness :
    (generate_image envOk defaultConfig 7 nowC sufC
        reqBannedNegative).submitted =
      [sync_workflow defaultConfig 7 reqBannedNegative] ∧
    nodeInput (sync_workflow defaultConfig 7 reqBannedNegative) "7".data
      "text".data =
      some (JVal.s (build_safe_prompt reqBannedNegative.prompt
        (reqBannedNegative.negative_prompt.getD [])).2) ∧
    (generate_image_async defaultConfig areqBanned).scheduled =
      [areqBanned] ∧
    validate_prompt defaultConfig.enable_safety reqBannedNegative.prompt =
      validate_prompt defaultConfig.enable_safety reqMountain.prompt := by
  have hc := c10_verdict_prompt_only defaultConfig envOk 7 nowC sufC
    reqBannedNegative reqMountain reqBannedNegative areqBanned
  exact ⟨(hc.2.1 (by decide)).1, (hc.2.1 (by decide)).2,
    (hc.2.2 (by decide)).1, (hc.1 rfl).1⟩
